import Mathlib

/-!
# Verification of the headless-extraction status protocol

Shallow embedding of the status/monitor/lifecycle code of the repository
(`headless_browser/status_updater.py`, `extraction_cli.py`,
`headless_browser/headless_extractor.py`) and proofs about the claims of the
specification.

Conventions:
* Wall-clock time is an explicit `Nat` parameter (`now`), threaded where the
  source calls `time.time()`.
* Filesystem paths are lists of components (`pathlib.Path` segments), and the
  filesystem is an association list from paths to file contents; a `write`
  prepends, and `read` returns the most recent entry.
* Fallible OS calls (mkdir, open-for-write, copy) succeed or fail according to
  an explicit `Env`; an uncaught Python exception is modelled by a `Bool`
  "raised" component carrying the partially mutated state, exactly as an
  exception propagates past already-performed mutations.
-/

/-- A filesystem path, as its list of components. -/
abbrev FPath := List String

/-- The filesystem: newest-first association list from paths to contents. -/
abbrev FS := List (FPath × String)

/-- Read a file: the most recently written content, or `none` if absent. -/
def FS.read (fs : FS) (p : FPath) : Option String :=
  (fs.find? (fun e => e.1 = p)).map (·.2)

/-- Overwrite (`open(path, "w")` + write + close): prepend the new content. -/
def FS.write (fs : FS) (p : FPath) (c : String) : FS := (p, c) :: fs

/-- Append (`open(path, "a")`): extend the current content (empty if absent). -/
def FS.append (fs : FS) (p : FPath) (c : String) : FS :=
  fs.write p ((fs.read p).getD "" ++ c)

/-- Which fallible OS operations succeed, chosen by the environment.
`writeOk p` covers creating `p`'s parent and opening/writing `p`
(the source wraps those in one `try`); `mkdirOk` is the unguarded
`date_archive_dir.mkdir(exist_ok=True)` in `archive_logs`; `copyOk` is
`shutil.copy2`. -/
structure Env where
  writeOk : FPath → Bool
  mkdirOk : Bool
  copyOk : Bool

/-- The environment in which every filesystem operation succeeds. -/
def Env.allOk : Env := ⟨fun _ => true, true, true⟩

/-- An environment in which creating the dated archive directory fails
(e.g. permissions, or the log directory was removed) but everything else
succeeds. -/
def envNoMkdir : Env := ⟨fun _ => true, false, true⟩

/-! ## Worker-side `StatusUpdater` (headless_browser/status_updater.py) -/

/-- Mutable fields of `StatusUpdater.__init__`
(status_updater.py:131-155).  `shared_dir` is the configured shared
directory; `status_file` is `shared_dir / "container_status.txt"`. -/
structure SUState where
  shared_dir : FPath
  domain : Option String
  running : Bool
  current_status : String
  steps_completed : Nat
  total_steps : Nat
  start_time : Nat
  has_problem : Bool
  last_update_time : Nat

/-- `self.status_file = self.shared_dir / "container_status.txt"`. -/
def SUState.status_file (s : SUState) : FPath := s.shared_dir ++ ["container_status.txt"]

/-- A fresh `StatusUpdater(shared_dir, domain)` at time `now`
(status_updater.py:131-155). -/
def SUState.init (shared_dir : FPath) (domain : Option String) (now : Nat) : SUState :=
  { shared_dir := shared_dir
    domain := domain
    running := false
    current_status := "Initializing extraction process..."
    steps_completed := 0
    total_steps := 5
    start_time := now
    has_problem := false
    last_update_time := now }

/-- `StatusUpdater.update_status(status, increment_step, is_problem)`
(status_updater.py:219-242): updates the in-memory fields and returns the
formatted status string it passes to `_write_status`.  Note the
`if increment_step: self.steps_completed += 1` in the source sits outside
the `if is_problem:`/`else:` branching, so the counter is incremented
whenever `increment_step` is true, problem or not.  The `_write_status`
side effect touches only the filesystem, never these fields. -/
def update_status (s : SUState) (now : Nat) (status : String)
    (increment_step is_problem : Bool) : SUState × String :=
  let s := { s with last_update_time := now }
  let (s, formatted_status) :=
    if is_problem then
      ({ s with has_problem := true }, "I HAVE A PROBLEM: " ++ status)
    else
      (s, if increment_step then "SUCCESSFULLY COMPLETED: " ++ status
          else "PROGRESS UPDATE: " ++ status)
  let s := { s with current_status := formatted_status }
  let s := if increment_step then { s with steps_completed := s.steps_completed + 1 } else s
  (s, formatted_status)

/-- `StatusUpdater.has_error()` (status_updater.py:244-251). -/
def has_error (s : SUState) : Bool := s.has_problem

/-- One operation performed on a `StatusUpdater` instance during its
lifetime: an `update_status` call, one iteration of the background ticker
`_update_loop` (status_updater.py:262-290; it only reads the fields and
writes the status file, mutating no field), or `stop()`
(status_updater.py:199-217). -/
inductive SUOp where
  | update (now : Nat) (status : String) (increment_step is_problem : Bool)
  | tick (now : Nat)
  | stop

/-- Apply one operation to the in-memory state. -/
def SUOp.apply (s : SUState) : SUOp → SUState
  | .update now status inc prob => (update_status s now status inc prob).1
  | .tick _ => s
  | .stop => { s with running := false }

/-- Apply a sequence of operations. -/
def applyOps (s : SUState) (ops : List SUOp) : SUState := ops.foldl SUOp.apply s

/-- A concrete fresh updater used by concrete instantiations. -/
def su0 : SUState := SUState.init ["shared"] none 0

/-! ## `LogManager` (headless_browser/status_updater.py:16-122) -/

/-- Mutable state of a `LogManager` (status_updater.py:19-35): the shared
directory it was constructed with and the archive throttle timestamp.
`archive_check_interval` is the constant 86400. -/
structure LMState where
  shared_dir : FPath
  last_archive_check : Nat

/-- A concrete `LogManager` state used by concrete instantiations. -/
def lm0 : LMState := { shared_dir := ["shared"], last_archive_check := 0 }

/-- A concrete filesystem holding one mailbox file, used by concrete
instantiations. -/
def fs0 : FS := [(["shared", "container_status.txt"], "hello")]

/-- `self.log_dir = self.shared_dir / "logs"`. -/
def LMState.log_dir (lm : LMState) : FPath := lm.shared_dir ++ ["logs"]

/-- `self.archive_dir = self.log_dir / "archive"`. -/
def LMState.archive_dir (lm : LMState) : FPath := lm.log_dir ++ ["archive"]

/-- The three status files of status_updater.py:29-31, as (stem, suffix)
pairs of their fixed filenames (`container_status.txt`,
`extraction_status.txt`, `debug_log.txt`). -/
def statusFiles : List (String × String) :=
  [("container_status", ".txt"), ("extraction_status", ".txt"), ("debug_log", ".txt")]

/-- The live path of one of the three status files. -/
def LMState.live (lm : LMState) (sf : String × String) : FPath :=
  lm.shared_dir ++ [sf.1 ++ sf.2]

/-- `self.container_status_file = self.shared_dir / "container_status.txt"`. -/
def LMState.container_status_file (lm : LMState) : FPath :=
  lm.shared_dir ++ ["container_status.txt"]

/-- `self.extraction_status_file = self.shared_dir / "extraction_status.txt"`. -/
def LMState.extraction_status_file (lm : LMState) : FPath :=
  lm.shared_dir ++ ["extraction_status.txt"]

/-- The dated backup path `date_archive_dir / f"{stem}_{timestamp}{suffix}"`
(status_updater.py:56-66). -/
def LMState.backup (lm : LMState) (dateStr tsStr : String) (sf : String × String) : FPath :=
  lm.archive_dir ++ [dateStr] ++ [sf.1 ++ "_" ++ tsStr ++ sf.2]

/-- The body of the archive loop for one status file
(status_updater.py:61-72): if the live file exists, try to copy it to its
dated backup path; a copy failure is caught and only printed. -/
def archive_one (env : Env) (lm : LMState) (dateStr tsStr : String)
    (fs : FS) (sf : String × String) : FS :=
  match fs.read (lm.live sf) with
  | none => fs
  | some content =>
      if env.copyOk then fs.write (lm.backup dateStr tsStr sf) content else fs

/-- `LogManager.archive_logs(force)` (status_updater.py:45-72) at time
`now`, with `dateStr`/`tsStr` the strings produced by
`datetime.now().strftime`.  Returns the new state and filesystem plus a
flag that is `true` iff an exception escapes to the caller: the only
unguarded operation is `date_archive_dir.mkdir(exist_ok=True)` at line 58
(per-file copy errors are caught at lines 68-72). -/
def archive_logs (env : Env) (now : Nat) (dateStr tsStr : String) (force : Bool)
    (lm : LMState) (fs : FS) : (LMState × FS) × Bool :=
  if ¬force ∧ now - lm.last_archive_check < 86400 then ((lm, fs), false)
  else
    let lm := { lm with last_archive_check := now }
    if env.mkdirOk then
      ((lm, statusFiles.foldl (archive_one env lm dateStr tsStr) fs), false)
    else
      ((lm, fs), true)

/-- `LogManager.get_log_path(log_name, domain)` (status_updater.py:37-43). -/
def LMState.get_log_path (lm : LMState) (log_name : String) (domain : Option String) : FPath :=
  match domain with
  | some d => lm.log_dir ++ [d] ++ [log_name ++ ".log"]
  | none => lm.log_dir ++ [log_name ++ ".log"]

/-- `LogManager.append_to_log(log_name, content, domain)`
(status_updater.py:74-87): appends a `[timestamp] content` line to the
(optionally domain-partitioned) log file; the whole body is inside a
`try`, so a failure is caught and the filesystem is left unchanged. -/
def append_to_log (env : Env) (lm : LMState) (tsStr : String) (fs : FS)
    (log_name content : String) (domain : Option String) : FS :=
  if env.writeOk (lm.get_log_path log_name domain) then
    fs.append (lm.get_log_path log_name domain) ("[" ++ tsStr ++ "] " ++ content ++ "\n")
  else fs

/-- `LogManager.write_status(status, is_container)`
(status_updater.py:89-122).  `archive_logs()` is called at line 92 outside
any `try`, so an exception from it propagates (the `raised` flag); the
primary write plus historical-log append are in a `try` whose handler
appends a best-effort diagnostic record to `status_write_error.log`
(itself guarded by a bare `except`). -/
def LogManager.write_status (env : Env) (now : Nat) (dateStr tsStr : String)
    (is_container : Bool) (status : String) (lm : LMState) (fs : FS) :
    (LMState × FS) × Bool :=
  match archive_logs env now dateStr tsStr false lm fs with
  | ((lm, fs), true) => ((lm, fs), true)
  | ((lm, fs), false) =>
      if env.writeOk (if is_container then lm.container_status_file
                      else lm.extraction_status_file) then
        ((lm, append_to_log env lm tsStr
            (fs.write (if is_container then lm.container_status_file
                       else lm.extraction_status_file)
              (status ++ "\nLast updated: " ++ tsStr))
            (if is_container then "container_log" else "extraction_log") status none),
          false)
      else
        if env.writeOk (lm.shared_dir ++ ["status_write_error.log"]) then
          ((lm, fs.append (lm.shared_dir ++ ["status_write_error.log"])
              ("[" ++ tsStr ++ "] Error writing status: " ++ status ++ "\n")), false)
        else ((lm, fs), false)

/-- `StatusUpdater._write_status(status)` (status_updater.py:292-353):
a direct write of the two-line record to the mailbox file (its `try` at
lines 302-308 swallows failures), then `log_manager.write_status` (its
`try` at lines 311-315 swallows even a propagated archive exception),
then the optional domain log append; console rendering has no filesystem
effect. -/
def su_write_status (env : Env) (now : Nat) (dateStr tsStr : String)
    (su : SUState) (status : String) (lm : LMState) (fs : FS) : LMState × FS :=
  let fs1 :=
    if env.writeOk su.status_file then
      fs.write su.status_file (status ++ "\nLast updated: " ++ tsStr)
    else fs
  let r := (LogManager.write_status env now dateStr tsStr true status lm fs1).1
  match su.domain with
  | some d => (r.1, append_to_log env r.1 tsStr r.2 "extraction_log" status (some d))
  | none => (r.1, r.2)

/-- `StatusUpdater.start()` (status_updater.py:157-181): flips `running`,
resets the clocks, launches the ticker thread (whose iterations are the
`SUOp.tick` operations and have no immediate effect), then synchronously
publishes the initial record via `_write_status` and appends a start
event to the `extraction_events` log (guarded by a `try`). -/
def StatusUpdater.start (env : Env) (now : Nat) (dateStr tsStr : String)
    (su : SUState) (lm : LMState) (fs : FS) : SUState × LMState × FS :=
  let su2 := { su with running := true, start_time := now, last_update_time := now }
  let r := su_write_status env now dateStr tsStr su2
    "Container started successfully - beginning extraction setup" lm fs
  (su2, r.1, append_to_log env r.1 tsStr r.2 "extraction_events"
    ("Started extraction process for domain: " ++ su2.domain.getD "unknown") su2.domain)

/-! ## Host-side `ExtractionMonitor` (extraction_cli.py:39-179)

The monitor is modelled as a step function on its mutable state.  What it
reads from the mailbox each tick (`observed`, `none` when the file does
not exist) and whether the shared directory exists (`parentExists`, the
guard of `_write_status` at extraction_cli.py:152) are inputs supplied by
the environment; what the monitor itself writes to the mailbox is the
`wrote` output of the tick, applied to a filesystem by `monApplyWrite`.
The worker's raw stdout/stderr relaying (extraction_cli.py:134-146) and
the operator `input()` prompt on problem escalation only produce console
output and are not part of the state. -/

/-- Bool test: does `needle` occur as a contiguous substring of `hay`?
(`needle in hay` in Python, on the underlying character lists.) -/
def listContains : List Char → List Char → Bool
  | [], n => n.isEmpty
  | h :: t, n => n.isPrefixOf (h :: t) || listContains t n

/-- `needle in hay` for strings. -/
def strContains (hay needle : String) : Bool := listContains hay.data needle.data

/-- Mutable state of the monitor: the instance fields of
`ExtractionMonitor` plus the locals of `_monitor_loop`
(extraction_cli.py:42-51 and 73-79).  `problem_text` (a display-only
slice of the status text) is not modelled. -/
structure MonState where
  last_status : String
  last_status_update : Nat
  warned : Bool
  start_time : Nat
  dots : Nat
  spinner_idx : Nat
  running : Bool
  has_problem : Bool
  deriving DecidableEq

/-- The environment-supplied inputs of one iteration of `_monitor_loop`. -/
structure TickIn where
  now : Nat
  exited : Bool
  observed : Option String
  parentExists : Bool

/-- The observable outputs of one iteration: which stall warning was
printed, whether a mailbox content change was observed, what was written
to the mailbox file, and whether a problem was escalated to the operator. -/
structure TickOut where
  bootWarn : Bool
  inactWarn : Bool
  changed : Bool
  wrote : Option String
  escalated : Bool
  deriving DecidableEq

/-- `spinner = ["|", "/", "-", "\\"]` (extraction_cli.py:76). -/
def spinner : List String := ["|", "/", "-", "\\"]

/-- One iteration of `ExtractionMonitor._monitor_loop`
(extraction_cli.py:81-148), as a function of the state and the tick
inputs.  Order of operations mirrors the source: worker-exit check first;
else, if the mailbox exists: the change check (resetting the inactivity
clock and re-arming the warning flag), then the 120s-inactivity check,
then problem detection, then the write-back of the observed status; if
the mailbox is absent: the spinner line, the 60s-bootstrap check, and the
write of the synthetic spinner status. -/
def monitorStep (s : MonState) (tin : TickIn) : MonState × TickOut :=
  if tin.exited then
    ({ s with running := false },
     { bootWarn := false, inactWarn := false, changed := false,
       wrote := if tin.parentExists then some "Extraction completed" else none,
       escalated := false })
  else
    match tin.observed with
    | some status =>
        let changed : Bool := status ≠ s.last_status
        let s1 :=
          if changed then
            { s with last_status_update := tin.now, last_status := status, warned := false }
          else s
        let fire : Bool := decide (tin.now - s1.last_status_update > 120) && !s1.warned
        let s2 := if fire then { s1 with warned := true } else s1
        let esc : Bool := strContains status "I HAVE A PROBLEM:"
        let s3 := if esc then { s2 with has_problem := true } else s2
        (s3, { bootWarn := false, inactWarn := fire, changed := changed,
               wrote := if tin.parentExists then some status else none,
               escalated := esc })
    | none =>
        let elapsed := tin.now - s.start_time
        let spinner_char := (spinner.get? s.spinner_idx).getD "|"
        let s1 := { s with spinner_idx := (s.spinner_idx + 1) % 4 }
        let fire : Bool := decide (elapsed > 60) && !s1.warned
        let s2 := if fire then { s1 with warned := true } else s1
        let status := spinner_char ++ " Extraction in progress ("
          ++ toString elapsed ++ "s elapsed)"
        let s3 := { s2 with dots := (s2.dots + 1) % 4 }
        (s3, { bootWarn := fire, inactWarn := false, changed := false,
               wrote := if tin.parentExists then
                   some (status ++ String.mk (List.replicate s3.dots '.'))
                 else none,
               escalated := false })

/-- `ExtractionMonitor.start(process)` (extraction_cli.py:53-65) at time
`now`: fresh state (instance fields from `__init__`, loop locals at their
loop-entry values) and the initial mailbox write
`"Starting extraction process..."`, performed before the polling thread
starts. -/
def monitorStart (now : Nat) (parentExists : Bool) : MonState × Option String :=
  ({ last_status := "", last_status_update := now, warned := false, start_time := now,
     dots := 0, spinner_idx := 0, running := true, has_problem := false },
   if parentExists then some "Starting extraction process..." else none)

/-- Apply a monitor mailbox write (`_write_status`,
extraction_cli.py:150-157: `self.status_file` is
`shared_dir / "container_status.txt"`) to a filesystem. -/
def monApplyWrite (sharedDir : FPath) (fs : FS) (w : Option String) : FS :=
  match w with
  | some c => fs.write (sharedDir ++ ["container_status.txt"]) c
  | none => fs

/-- The per-tick outputs of a run of the monitor loop from state `s` over
a list of tick inputs. -/
def monitorRun (s : MonState) : List TickIn → List TickOut
  | [] => []
  | tin :: rest => (monitorStep s tin).2 :: monitorRun (monitorStep s tin).1 rest

/-- A tick output counts as a stall-warning fire if either detector
printed its warning. -/
def fired (o : TickOut) : Prop := o.bootWarn = true ∨ o.inactWarn = true

/-- The monitor state at loop entry for a monitor started at time 0. -/
def monInit : MonState := (monitorStart 0 true).1

/-- The monitor state after running the loop over a list of tick inputs. -/
def monFinal (s : MonState) (l : List TickIn) : MonState :=
  l.foldl (fun s tin => (monitorStep s tin).1) s

/-- First half of the concrete stall scenario: the worker publishes one
record at t=0, then nothing for 130 seconds.  The monitor polls once per
second (extraction_cli.py:148), the worker process stays alive, and the
shared directory exists.  (The monitor's own write-back each tick
rewrites the observed content unchanged, so the observed content is
constant within the gap.) -/
def scenarioGap1 : List TickIn :=
  (List.range 131).map (fun k =>
    { now := k, exited := false,
      observed := some "SUCCESSFULLY COMPLETED: Navigating", parentExists := true })

/-- Second half of the stall scenario: intervening activity (a new record
published at t=131) followed by another 130-second silent gap. -/
def scenarioGap2 : List TickIn :=
  (List.range 131).map (fun k =>
    { now := 131 + k, exited := false,
      observed := some "SUCCESSFULLY COMPLETED: Extracting", parentExists := true })

/-- The full stall scenario: a 130s silent gap, intervening activity,
then a second identical gap. -/
def scenarioTrace : List TickIn := scenarioGap1 ++ scenarioGap2

/-- The monitor state during the first gap before the warning fires
(after the first record was observed at t=0). -/
def monPre : MonState :=
  { last_status := "SUCCESSFULLY COMPLETED: Navigating", last_status_update := 0,
    warned := false, start_time := 0, dots := 0, spinner_idx := 0,
    running := true, has_problem := false }

/-- The monitor state after the first gap (computed by evaluation; proved
equal to `monFinal monInit scenarioGap1` below). -/
def monMid : MonState :=
  { last_status := "SUCCESSFULLY COMPLETED: Navigating", last_status_update := 0,
    warned := true, start_time := 0, dots := 0, spinner_idx := 0,
    running := true, has_problem := false }

/-- A short concrete trace with two inactivity fires separated by
activity: a record at t=0, silence until the poll at t=121 (fire), a new
record at t=122, silence until the poll at t=243 (second fire). -/
def witnessTrace : List TickIn :=
  [{ now := 0, exited := false, observed := some "A", parentExists := true },
   { now := 121, exited := false, observed := some "A", parentExists := true },
   { now := 122, exited := false, observed := some "B", parentExists := true },
   { now := 243, exited := false, observed := some "B", parentExists := true }]

/-! ## `HeadlessExtractor.run` (headless_browser/headless_extractor.py:518-562)

`run()` awaits the extraction task under `asyncio.wait_for` with a
600-second budget.  The embedding abstracts the awaited task's fate into
an `Outcome` (returned a result dict, timed out, or raised) and records
`run`'s control flow: the returned dict, whether `run` itself raises, how
many times the `finally` block stops the StatusUpdater, how many times
the extraction task is cancelled, which paths are deleted (none — `run`
contains no file deletion), and the one mailbox write the timeout/error
handlers perform through `update_status(..., is_problem=True)` (the
module-local `StatusUpdater` of headless_extractor.py:152-205, whose
status file is `shared/<domain>/container_status.txt`, here the
`mailbox` parameter). -/

/-- A Python result dict keyed by strings, in insertion order. -/
abbrev ResultDict := List (String × String)

/-- `d[k] = v`: replace an existing binding in place, else append. -/
def setKV : ResultDict → String → String → ResultDict
  | [], k, v => [(k, v)]
  | e :: rest, k, v => if e.1 = k then (k, v) :: rest else e :: setKV rest k v

/-- `d.get(k)`. -/
def getKV (d : ResultDict) (k : String) : Option String :=
  (d.find? (fun e => e.1 = k)).map (·.2)

/-- How the awaited extraction task ends, as observed by `run()`. -/
inductive Outcome where
  | completed (res : ResultDict)
  | timedOut
  | failed (msg : String)

/-- The observable effects of one `run()` call. -/
structure RunOut where
  result : ResultDict
  raised : Bool
  updater_stops : Nat
  task_cancels : Nat
  deleted_paths : List FPath

/-- `f"Extraction timed out after {MAX_EXTRACTION_TIME} seconds"` with
`MAX_EXTRACTION_TIME = 600` (headless_extractor.py:524). -/
def timeoutMsg : String := "Extraction timed out after 600 seconds"

/-- `HeadlessExtractor.run` (headless_extractor.py:518-562).  On
`TimeoutError`, `wait_for` has already cancelled the extraction task
(one cancellation); the handler publishes a problem status, then merges
`status`/`message` into `extraction_results` if it is non-empty
(Python dict truthiness) or returns a fresh timeout dict; the `finally`
stops the updater exactly once and skips its own `cancel()` because the
task is already done.  On an ordinary exception the handler publishes a
problem status and returns an error dict.  No path deletes a file. -/
def HeadlessExtractor.run (outcome : Outcome) (pre : ResultDict)
    (mailbox : FPath) (fs : FS) : RunOut × FS :=
  match outcome with
  | .completed res =>
      ({ result := res, raised := false, updater_stops := 1, task_cancels := 0,
         deleted_paths := [] }, fs)
  | .timedOut =>
      ({ result :=
           if pre.isEmpty then [("status", "timeout"), ("message", timeoutMsg)]
           else setKV (setKV pre "status" "timeout") "message" timeoutMsg,
         raised := false, updater_stops := 1, task_cancels := 1,
         deleted_paths := [] },
       fs.write mailbox ("I HAVE A PROBLEM: " ++ timeoutMsg))
  | .failed m =>
      ({ result := [("status", "error"), ("message", m)], raised := false,
         updater_stops := 1, task_cancels := 0, deleted_paths := [] },
       fs.write mailbox ("I HAVE A PROBLEM: Error during extraction: " ++ m))

/-! ## StatusChannel publish interleavings (C9)

`StatusUpdater._write_status` overwrites the mailbox in place with
`open(self.status_file, 'w', encoding='utf-8')` followed by two `write`
calls (status_updater.py:303-305).  Opening with mode `"w"` truncates the
file immediately; the buffered writes become visible no later than the
close at the end of the `with` block.  A reader concurrent with one
publish therefore observes one of three file states: the complete
previous content (reading before the open), the truncated file (reading
between the open and the close), or the complete new content (reading
after the close).  There is no temporary file and no rename. -/

/-- The mailbox contents observable by a concurrent reader during one
in-place publish that overwrites `old` with `new`, in program order. -/
def publishObservable (old new : String) : List String := [old, "", new]

/-! ## Progress percentage under IEEE-754 binary64 (C5)

`_update_loop` computes
`min(100, int((self.steps_completed / self.total_steps) * 100))`
(status_updater.py:275).  In CPython, `int / int` is true division
producing the correctly rounded (round to nearest, ties to even) IEEE-754
binary64 value of the exact quotient; `* 100` is a correctly rounded
binary64 multiplication (100 is exactly representable); `int(...)`
truncates toward zero.  The embedding represents a finite nonnegative
double exactly as a significand-exponent pair with value `m * 2^e` and
`m < 2^53`, and implements the two correctly rounded operations with
exact integer arithmetic.  Overflow and subnormal thresholds are
unreachable for the magnitudes involved and are not modelled. -/

/-- A finite nonnegative binary64 value `m * 2^e` (normalised by the
smart constructors below so that `m < 2^53`). -/
structure F64 where
  m : Nat
  e : Int

/-- Floor base-2 logarithm by structural recursion on a fuel argument
(so that kernel reduction works); `natLog2 n = Nat.log2 n` for the
positive inputs used here. -/
def log2fuel : Nat → Nat → Nat
  | 0, _ => 0
  | fuel + 1, n => if 2 ≤ n then log2fuel fuel (n / 2) + 1 else 0

/-- Floor base-2 logarithm. -/
def natLog2 (n : Nat) : Nat := log2fuel n n

/-- Round `n / d` (for `d > 0`) to the nearest integer, ties to even. -/
def rdivNearestEven (n d : Nat) : Nat :=
  if 2 * (n % d) < d then n / d
  else if d < 2 * (n % d) then n / d + 1
  else if n / d % 2 = 0 then n / d else n / d + 1

/-- The significand obtained by rounding the exact rational
`a / (b * 2^e)` to the nearest integer, ties to even. -/
def divSig (a b : Nat) (e : Int) : Nat :=
  if 0 ≤ e then rdivNearestEven a (b * 2 ^ e.toNat)
  else rdivNearestEven (a * 2 ^ (-e).toNat) b

/-- Correctly rounded binary64 division of the naturals `a / b`
(CPython `int.__truediv__`).  The exponent is first estimated from the
floor base-2 logarithms so that the scaled quotient lands in
`[2^51, 2^53)`, then adjusted so the rounded significand is normalised.
Returns `0.0` for `a = 0` (the `b = 0` guard is never hit by the caller
since `total_steps > 0`). -/
def f64div (a b : Nat) : F64 :=
  if a = 0 ∨ b = 0 then ⟨0, 0⟩
  else
    let d : Int := (natLog2 a : Int) - (natLog2 b : Int) - 52
    let m0 := divSig a b d
    if m0 < 2 ^ 52 then
      let m1 := divSig a b (d - 1)
      if m1 = 2 ^ 53 then ⟨2 ^ 52, d⟩ else ⟨m1, d - 1⟩
    else if 2 ^ 53 ≤ m0 then
      let m1 := divSig a b (d + 1)
      if m1 = 2 ^ 53 then ⟨2 ^ 52, d + 2⟩ else ⟨m1, d + 1⟩
    else ⟨m0, d⟩

/-- Correctly rounded binary64 multiplication of a double by the exact
integer 100 (`* 100`): the exact product `(m * 100) * 2^e` re-rounded to
at most 53 significand bits. -/
def f64mul100 (x : F64) : F64 :=
  if x.m * 100 < 2 ^ 53 then ⟨x.m * 100, x.e⟩
  else
    let k := natLog2 (x.m * 100) - 52
    let m1 := rdivNearestEven (x.m * 100) (2 ^ k)
    if m1 = 2 ^ 53 then ⟨2 ^ 52, x.e + k + 1⟩ else ⟨m1, x.e + k⟩

/-- `int(x)` for a nonnegative double: truncation toward zero, which for
nonnegative values is the floor of `m * 2^e`. -/
def f64toInt (x : F64) : Nat :=
  if 0 ≤ x.e then x.m * 2 ^ x.e.toNat else x.m / 2 ^ (-x.e).toNat

/-- The progress percentage published by the ticker
(status_updater.py:275):
`min(100, int((steps_completed / total_steps) * 100))` under CPython
binary64 arithmetic. -/
def progress (steps_completed total_steps : Nat) : Nat :=
  min 100 (f64toInt (f64mul100 (f64div steps_completed total_steps)))

/-- C1 counterexample: the claim "every call with is_problem=true leaves
steps_completed unchanged (regardless of the increment_step argument)" is
false on the code: `update_status("x", increment_step=True, is_problem=True)`
on a fresh updater moves `steps_completed` from 0 to 1, because the
increment in status_updater.py:240-241 is outside the `is_problem` branch. -/
theorem C1_counterexample :
    (update_status su0 0 "x" true true).1.steps_completed ≠ su0.steps_completed := by
  decide

/-- C1 (amended): for every `update_status` call, `steps_completed` is
incremented exactly when `increment_step` is true — regardless of
`is_problem` — and in particular it is monotonically non-decreasing across
every sequence of calls. -/
theorem C1_steps_monotone (s : SUState) (now : Nat) (status : String)
    (inc prob : Bool) :
    (update_status s now status inc prob).1.steps_completed
      = s.steps_completed + (if inc then 1 else 0) ∧
    s.steps_completed ≤ (update_status s now status inc prob).1.steps_completed := by
  constructor
  · cases inc <;> cases prob <;> simp [update_status]
  · cases inc <;> cases prob <;> simp [update_status]

/-! ### C10 -/

/-- Every single operation preserves a raised problem flag: the only write
to `has_problem` after `__init__` is `self.has_problem = True` in
status_updater.py:234. -/
theorem hasProblem_preserved (s : SUState) (op : SUOp) :
    s.has_problem = true → (op.apply s).has_problem = true := by
  intro h
  cases op with
  | update now status inc prob =>
      cases inc <;> cases prob <;> simp_all [SUOp.apply, update_status]
  | tick _ => exact h
  | stop => exact h

/-- Sequencing preserves a raised problem flag. -/
theorem hasProblem_preserved_ops (s : SUState) (ops : List SUOp) :
    s.has_problem = true → (applyOps s ops).has_problem = true := by
  induction ops generalizing s with
  | nil => exact fun h => h
  | cons op rest ih =>
      intro h
      exact ih _ (hasProblem_preserved s op h)

/-- C10: the problem flag is sticky.  For every instance and every
lifetime `ops1 ++ [update(msg, inc, is_problem=true)] ++ ops2`,
`has_error()` returns true after the problem update and stays true through
any further updates, ticker iterations, and `stop()`. -/
theorem C10_problem_sticky (s : SUState) (ops1 ops2 : List SUOp)
    (now : Nat) (msg : String) (inc : Bool) :
    has_error (applyOps ((SUOp.update now msg inc true).apply (applyOps s ops1)) ops2)
      = true := by
  apply hasProblem_preserved_ops
  cases inc <;> simp [SUOp.apply, update_status, has_error]

/-! ### Filesystem and path lemmas -/

/-- Reading back a path just written yields the written content. -/
theorem FS.read_write_self (fs : FS) (p : FPath) (c : String) :
    (fs.write p c).read p = some c := by
  simp [FS.read, FS.write, List.find?]

/-- Writing one path leaves reads of a different path unchanged. -/
theorem FS.read_write_ne (fs : FS) (p q : FPath) (c : String) (h : p ≠ q) :
    (fs.write q c).read p = fs.read p := by
  have hd : ¬(q = p) := fun h' => h h'.symm
  simp [FS.read, FS.write, List.find?, hd]

/-- Appending to one path leaves reads of a different path unchanged. -/
theorem FS.read_append_ne (fs : FS) (p q : FPath) (c : String) (h : p ≠ q) :
    (fs.append q c).read p = fs.read p :=
  FS.read_write_ne fs p q _ h

/-- A live status file path is never a dated backup path (they differ in
component count). -/
theorem live_ne_backup (lm : LMState) (d t : String) (sf sf' : String × String) :
    lm.live sf ≠ lm.backup d t sf' := by
  intro he
  have := congrArg List.length he
  simp [LMState.live, LMState.backup, LMState.archive_dir, LMState.log_dir] at this

/-- Two dated backup paths with filenames of different total length are
distinct, for every date and timestamp string. -/
theorem backup_ne (lm : LMState) (d t : String) (sf1 sf2 : String × String)
    (h : sf1.1.length + sf1.2.length ≠ sf2.1.length + sf2.2.length) :
    lm.backup d t sf1 ≠ lm.backup d t sf2 := by
  intro he
  simp only [LMState.backup, LMState.archive_dir, LMState.log_dir,
    List.append_assoc, List.append_cancel_left_eq, List.cons.injEq] at he
  have := congrArg String.length he.1
  simp [String.length_append] at this
  omega

/-- Short paths (at most `shared_dir` plus one component) are never backup
paths, so one archive-copy step preserves them. -/
theorem archive_one_read_short (env : Env) (lm : LMState) (d t : String)
    (fs : FS) (sf : String × String) (p : FPath)
    (hp : p.length ≤ lm.shared_dir.length + 3) :
    (archive_one env lm d t fs sf).read p = fs.read p := by
  have hne : p ≠ lm.backup d t sf := by
    intro he
    have := congrArg List.length he
    simp [LMState.backup, LMState.archive_dir, LMState.log_dir] at this
    omega
  unfold archive_one
  cases fs.read (lm.live sf) with
  | none => rfl
  | some c =>
      simp only
      split
      · exact FS.read_write_ne fs p _ c hne
      · rfl

/-- `archive_logs` preserves reads of short paths (in particular of every
live status file). -/
theorem archive_logs_read_short (env : Env) (now : Nat) (d t : String)
    (force : Bool) (lm : LMState) (fs : FS) (p : FPath)
    (hp : p.length ≤ lm.shared_dir.length + 3) :
    ((archive_logs env now d t force lm fs).1.2).read p = fs.read p := by
  unfold archive_logs
  split
  · rfl
  · split
    · simp only
      have : ∀ (l : List (String × String)) (fs : FS),
          (l.foldl (archive_one env { lm with last_archive_check := now } d t) fs).read p
            = fs.read p := by
        intro l
        induction l with
        | nil => intro fs; rfl
        | cons sf rest ih =>
            intro fs
            rw [List.foldl_cons, ih, archive_one_read_short]
            exact hp
      exact this statusFiles fs
    · rfl

/-- `append_to_log` preserves reads of paths no longer than `shared_dir`
plus one component (all log paths are longer). -/
theorem append_to_log_read_short (env : Env) (lm : LMState) (t : String)
    (fs : FS) (ln content : String) (dom : Option String) (p : FPath)
    (hp : p.length ≤ lm.shared_dir.length + 1) :
    (append_to_log env lm t fs ln content dom).read p = fs.read p := by
  unfold append_to_log
  split
  · apply FS.read_append_ne
    intro he
    have := congrArg List.length he
    cases dom <;>
      simp [LMState.get_log_path, LMState.log_dir] at this <;> omega
  · rfl

/-- `LogManager.write_status` and `archive_logs` leave `shared_dir`
unchanged. -/
theorem write_status_shared_dir (env : Env) (now : Nat) (d t : String)
    (is_c : Bool) (status : String) (lm : LMState) (fs : FS) :
    ((LogManager.write_status env now d t is_c status lm fs).1.1).shared_dir
      = lm.shared_dir := by
  have harch : ∀ f, ((archive_logs env now d t f lm fs).1.1).shared_dir = lm.shared_dir := by
    intro f
    unfold archive_logs
    split
    · rfl
    · split <;> rfl
  unfold LogManager.write_status
  split
  next lm' fs' heq =>
    have := harch false
    rw [heq] at this
    exact this
  next lm' fs' heq =>
    have := harch false
    rw [heq] at this
    simp only at this
    repeat' split
    all_goals simpa using this

/-- `archive_logs` leaves `shared_dir` unchanged. -/
theorem archive_logs_shared_dir (env : Env) (now : Nat) (d t : String)
    (f : Bool) (lm : LMState) (fs : FS) :
    ((archive_logs env now d t f lm fs).1.1).shared_dir = lm.shared_dir := by
  unfold archive_logs
  split
  · rfl
  · split <;> rfl

/-- One archive-copy step preserves reads at any path other than its own
backup path. -/
theorem archive_one_read_ne (env : Env) (lm : LMState) (d t : String)
    (fs : FS) (sf : String × String) (p : FPath) (h : p ≠ lm.backup d t sf) :
    (archive_one env lm d t fs sf).read p = fs.read p := by
  unfold archive_one
  cases fs.read (lm.live sf) with
  | none => rfl
  | some c =>
      simp only
      split
      · exact FS.read_write_ne fs p _ c h
      · rfl

/-- One archive-copy step establishes the backup copy when the live file
exists and the copy succeeds. -/
theorem archive_one_read_backup (env : Env) (lm : LMState) (d t : String)
    (fs : FS) (sf : String × String) (c : String)
    (hcopy : env.copyOk = true) (hc : fs.read (lm.live sf) = some c) :
    (archive_one env lm d t fs sf).read (lm.backup d t sf) = some c := by
  unfold archive_one
  rw [hc]
  simp only [hcopy, if_true]
  exact FS.read_write_self fs _ c

/-- The archive loop over the three status files establishes the dated
backup copy of every live file that exists. -/
theorem archive_fold_backup (env : Env) (lm : LMState) (d t : String) (fs : FS)
    (hcopy : env.copyOk = true) :
    ∀ sf ∈ statusFiles, ∀ c, fs.read (lm.live sf) = some c →
      (statusFiles.foldl (archive_one env lm d t) fs).read (lm.backup d t sf) = some c := by
  intro sf hsf c hc
  have ne12 : lm.backup d t ("container_status", ".txt")
      ≠ lm.backup d t ("extraction_status", ".txt") := backup_ne lm d t _ _ (by decide)
  have ne13 : lm.backup d t ("container_status", ".txt")
      ≠ lm.backup d t ("debug_log", ".txt") := backup_ne lm d t _ _ (by decide)
  have ne23 : lm.backup d t ("extraction_status", ".txt")
      ≠ lm.backup d t ("debug_log", ".txt") := backup_ne lm d t _ _ (by decide)
  fin_cases hsf
  · simp only [statusFiles, List.foldl]
    rw [archive_one_read_ne env lm d t _ _ _ ne13,
        archive_one_read_ne env lm d t _ _ _ ne12]
    exact archive_one_read_backup env lm d t fs _ c hcopy hc
  · simp only [statusFiles, List.foldl]
    rw [archive_one_read_ne env lm d t _ _ _ ne23]
    refine archive_one_read_backup env lm d t _ _ c hcopy ?_
    rw [archive_one_read_ne env lm d t _ _ _ (live_ne_backup lm d t _ _)]
    exact hc
  · simp only [statusFiles, List.foldl]
    refine archive_one_read_backup env lm d t _ _ c hcopy ?_
    rw [archive_one_read_ne env lm d t _ _ _ (live_ne_backup lm d t _ _),
        archive_one_read_ne env lm d t _ _ _ (live_ne_backup lm d t _ _)]
    exact hc

/-! ### C7 -/

/-- C7 counterexample: the claim "write_status and archive_logs never
raise" is false on the code.  With the archive throttle due
(`now - last_archive_check = 86400`) and directory creation failing, the
unguarded `date_archive_dir.mkdir(exist_ok=True)` at status_updater.py:58
propagates out of `archive_logs`, and the unguarded `self.archive_logs()`
call at status_updater.py:92 propagates it out of `write_status` as well. -/
theorem C7_counterexample :
    (LogManager.write_status envNoMkdir 86400 "20250101" "120000" true "s" lm0 []).2
      = true ∧
    (archive_logs envNoMkdir 86400 "20250101" "120000" true lm0 []).2 = true := by
  constructor <;> rfl

/-- C7 (amended): per-file copy errors, primary status-write errors (with
the best-effort fallback record) and fallback errors are all caught, so
whenever creating the dated archive directory succeeds, `archive_logs`
and `write_status` return without raising, for every input. -/
theorem C7_no_raise (env : Env) (now : Nat) (d t : String) (force is_c : Bool)
    (status : String) (lm : LMState) (fs : FS) (h : env.mkdirOk = true) :
    (archive_logs env now d t force lm fs).2 = false ∧
    (LogManager.write_status env now d t is_c status lm fs).2 = false := by
  have ha : ∀ f, (archive_logs env now d t f lm fs).2 = false := by
    intro f
    unfold archive_logs
    split
    · rfl
    · simp [h]
  refine ⟨ha force, ?_⟩
  unfold LogManager.write_status
  split
  next lm' fs' heq =>
    have := ha false
    rw [heq] at this
    simp at this
  next lm' fs' heq =>
    repeat' split
    all_goals rfl

/-- C7 witness: a concrete run of both operations in the all-ok
environment returns without raising. -/
theorem C7_witness :
    (archive_logs Env.allOk 0 "20250101" "120000" true lm0 []).2 = false ∧
    (LogManager.write_status Env.allOk 0 "20250101" "120000" true "s" lm0 []).2 = false :=
  C7_no_raise Env.allOk 0 "20250101" "120000" true true "s" lm0 [] rfl

/-! ### C8 -/

/-- C8: archiving is a copy, never a move.  Whenever `archive_logs` is
forced or due and the copies succeed, (1) it raises nothing, (2) every
live status file that exists gets a byte-identical copy at its dated
backup path, and (3) the live files themselves are unchanged. -/
theorem C8_archive_copies (env : Env) (now : Nat) (d t : String) (force : Bool)
    (lm : LMState) (fs : FS)
    (hcopy : env.copyOk = true) (hmk : env.mkdirOk = true)
    (hdue : force = true ∨ 86400 ≤ now - lm.last_archive_check) :
    (archive_logs env now d t force lm fs).2 = false ∧
    (∀ sf ∈ statusFiles, ∀ c, fs.read (lm.live sf) = some c →
      ((archive_logs env now d t force lm fs).1.2).read (lm.backup d t sf) = some c) ∧
    (∀ sf ∈ statusFiles,
      ((archive_logs env now d t force lm fs).1.2).read (lm.live sf)
        = fs.read (lm.live sf)) := by
  have hg : ¬(¬force = true ∧ now - lm.last_archive_check < 86400) := by
    rcases hdue with h | h
    · simp [h]
    · exact fun hc => absurd hc.2 (by omega)
  have harr : archive_logs env now d t force lm fs
      = (({ lm with last_archive_check := now },
          statusFiles.foldl
            (archive_one env { lm with last_archive_check := now } d t) fs), false) := by
    unfold archive_logs
    rw [if_neg hg]
    simp [hmk]
  refine ⟨by rw [harr], ?_, ?_⟩
  · intro sf hsf c hc
    rw [harr]
    exact archive_fold_backup env { lm with last_archive_check := now } d t fs hcopy
      sf hsf c hc
  · intro sf _
    exact archive_logs_read_short env now d t force lm fs _ (by simp [LMState.live])

/-- C8 witness: a concrete archive run copies the existing mailbox
content to the dated backup path. -/
theorem C8_witness :
    ((archive_logs Env.allOk 0 "20250101" "120000" true lm0 fs0).1.2).read
        (lm0.backup "20250101" "120000" ("container_status", ".txt")) = some "hello" :=
  (C8_archive_copies Env.allOk 0 "20250101" "120000" true lm0 fs0 rfl rfl
      (Or.inl rfl)).2.1 ("container_status", ".txt") (by decide) "hello" (by decide)

/-! ### C2 -/

/-- If the mailbox already holds the record and the mailbox write
succeeds, `LogManager.write_status` leaves exactly that record readable
(whether or not the throttled archive raises on the way). -/
theorem write_status_container_read (env : Env) (now : Nat) (d t status : String)
    (lm : LMState) (fs : FS)
    (hw : env.writeOk lm.container_status_file = true)
    (hc : fs.read lm.container_status_file = some (status ++ "\nLast updated: " ++ t)) :
    ((LogManager.write_status env now d t true status lm fs).1.2).read
        lm.container_status_file = some (status ++ "\nLast updated: " ++ t) := by
  have hpres : ((archive_logs env now d t false lm fs).1.2).read lm.container_status_file
      = fs.read lm.container_status_file :=
    archive_logs_read_short env now d t false lm fs _
      (by simp [LMState.container_status_file])
  have hsd := archive_logs_shared_dir env now d t false lm fs
  unfold LogManager.write_status
  split
  next lm' fs' heq =>
    rw [heq] at hpres
    simp only at hpres
    rw [hpres]
    exact hc
  next lm' fs' heq =>
    rw [heq] at hpres hsd
    simp only at hpres hsd
    have hcf : lm'.container_status_file = lm.container_status_file := by
      simp [LMState.container_status_file, hsd]
    simp only [if_true, hcf]
    rw [if_pos hw]
    simp only
    rw [append_to_log_read_short env lm' t _ "container_log" status none _
        (by simp [LMState.container_status_file, hsd])]
    exact FS.read_write_self fs' _ _

/-- C2: `start()` publishes synchronously.  For every updater whose
`LogManager` shares its directory, if writing the mailbox file succeeds
then immediately after `start()` returns, the mailbox holds the initial
record (the read is non-absent). -/
theorem C2_start_publishes (env : Env) (now : Nat) (d t : String)
    (su : SUState) (lm : LMState) (fs : FS)
    (hsd : lm.shared_dir = su.shared_dir)
    (hw : env.writeOk su.status_file = true) :
    ((StatusUpdater.start env now d t su lm fs).2.2).read su.status_file
      = some ("Container started successfully - beginning extraction setup"
          ++ "\nLast updated: " ++ t) := by
  have hpath : lm.container_status_file = su.status_file := by
    simp [LMState.container_status_file, SUState.status_file, hsd]
  have hw' : env.writeOk lm.container_status_file = true := by rw [hpath]; exact hw
  unfold StatusUpdater.start su_write_status
  simp only [SUState.status_file]
  simp only [SUState.status_file] at hw
  rw [if_pos hw]
  have hc : (fs.write (su.shared_dir ++ ["container_status.txt"])
        ("Container started successfully - beginning extraction setup"
          ++ "\nLast updated: " ++ t)).read lm.container_status_file
      = some ("Container started successfully - beginning extraction setup"
          ++ "\nLast updated: " ++ t) := by
    rw [hpath, SUState.status_file]
    exact FS.read_write_self fs _ _
  have hmain := write_status_container_read env now d t
    "Container started successfully - beginning extraction setup" lm
    (fs.write (su.shared_dir ++ ["container_status.txt"])
      ("Container started successfully - beginning extraction setup"
        ++ "\nLast updated: " ++ t)) hw' hc
  rw [hpath, SUState.status_file] at hmain
  have hwsd := write_status_shared_dir env now d t true
    "Container started successfully - beginning extraction setup" lm
    (fs.write (su.shared_dir ++ ["container_status.txt"])
      ("Container started successfully - beginning extraction setup"
        ++ "\nLast updated: " ++ t))
  cases hdom : su.domain with
  | none =>
      simp only [hdom, Option.getD]
      rw [append_to_log_read_short _ _ _ _ _ _ _ _
          (by rw [hwsd, hsd]; simp)]
      exact hmain
  | some d0 =>
      simp only [hdom, Option.getD]
      rw [append_to_log_read_short _ _ _ _ _ _ _ _
          (by rw [hwsd, hsd]; simp)]
      rw [append_to_log_read_short _ _ _ _ _ _ _ _
          (by rw [hwsd, hsd]; simp)]
      exact hmain

/-- C2 witness: a concrete start in the all-ok environment leaves the
initial record in the mailbox. -/
theorem C2_witness :
    ((StatusUpdater.start Env.allOk 7 "20250101" "120000" su0 lm0 []).2.2).read
        su0.status_file
      = some ("Container started successfully - beginning extraction setup"
          ++ "\nLast updated: " ++ "120000") :=
  C2_start_publishes Env.allOk 7 "20250101" "120000" su0 lm0 [] rfl rfl

/-! ### Monitor step lemmas (C3, C4) -/

/-- If the warning flag is armed and the tick observes no content change,
the flag stays armed: the only reset is the change branch at
extraction_cli.py:93-96. -/
theorem monitorStep_warned_persists (s : MonState) (tin : TickIn)
    (hw : s.warned = true) (hch : (monitorStep s tin).2.changed = false) :
    (monitorStep s tin).1.warned = true := by
  rcases tin with ⟨now, ex, ob, pe⟩
  cases ex
  · cases ob with
    | none => simp [monitorStep, hw]
    | some st =>
        have hst : st = s.last_status := by
          by_contra hne
          simp [monitorStep, hne] at hch
        subst hst
        simp [monitorStep, hw]
        split <;> simp [hw]
  · simp [monitorStep, hw]

/-- A warning can fire on a tick with pre-armed flag only if that very
tick observed a content change (which disarmed it first). -/
theorem monitorStep_fire_changed (s : MonState) (tin : TickIn)
    (hw : s.warned = true)
    (hf : (monitorStep s tin).2.bootWarn = true ∨ (monitorStep s tin).2.inactWarn = true) :
    (monitorStep s tin).2.changed = true := by
  rcases tin with ⟨now, ex, ob, pe⟩
  cases ex
  · cases ob with
    | none => simp [monitorStep, hw] at hf
    | some st =>
        by_cases hst : st = s.last_status
        · subst hst
          simp [monitorStep, hw] at hf
        · simp [monitorStep, hst]
  · simp [monitorStep] at hf

/-- After a tick on which either warning fired, the flag is armed. -/
theorem monitorStep_fire_warned (s : MonState) (tin : TickIn)
    (hf : (monitorStep s tin).2.bootWarn = true ∨ (monitorStep s tin).2.inactWarn = true) :
    (monitorStep s tin).1.warned = true := by
  rcases tin with ⟨now, ex, ob, pe⟩
  cases ex
  · cases ob with
    | none =>
        simp [monitorStep] at hf ⊢
        simp [hf]
    | some st =>
        simp [monitorStep] at hf ⊢
        simp [hf]
        split <;> rfl
  · simp [monitorStep] at hf

/-- From an armed state, any later fire is preceded (at or before it) by
an observed content change. -/
theorem monitorRun_fire_after_warned :
    ∀ (ins : List TickIn) (s : MonState), s.warned = true →
      ∀ (j : Nat) (oj : TickOut), (monitorRun s ins)[j]? = some oj → fired oj →
        ∃ k ok, k ≤ j ∧ (monitorRun s ins)[k]? = some ok ∧ ok.changed = true := by
  intro ins
  induction ins with
  | nil =>
      intro s _ j oj hj _
      simp [monitorRun] at hj
  | cons tin rest ih =>
      intro s hw j oj hj hf
      cases j with
      | zero =>
          refine ⟨0, (monitorStep s tin).2, Nat.le_refl 0, by simp [monitorRun], ?_⟩
          simp [monitorRun] at hj
          exact monitorStep_fire_changed s tin hw (hj ▸ hf)
      | succ j' =>
          cases hch : (monitorStep s tin).2.changed with
          | false =>
              have hw' := monitorStep_warned_persists s tin hw hch
              have hj' : (monitorRun (monitorStep s tin).1 rest)[j']? = some oj := by
                simpa [monitorRun] using hj
              obtain ⟨k, ok, hk, hok, hchk⟩ := ih (monitorStep s tin).1 hw' j' oj hj' hf
              exact ⟨k + 1, ok, by omega, by simpa [monitorRun] using hok, hchk⟩
          | true =>
              exact ⟨0, (monitorStep s tin).2, Nat.zero_le _, by simp [monitorRun], hch⟩

/-- Helper for C4: two fires are separated by an observed content change. -/
theorem monitorRun_rearm :
    ∀ (ins : List TickIn) (s : MonState) (i j : Nat) (oi oj : TickOut),
      i < j → (monitorRun s ins)[i]? = some oi → (monitorRun s ins)[j]? = some oj →
      fired oi → fired oj →
      ∃ k ok, i < k ∧ k ≤ j ∧ (monitorRun s ins)[k]? = some ok ∧ ok.changed = true := by
  intro ins
  induction ins with
  | nil =>
      intro s i j oi oj _ hi _ _ _
      simp [monitorRun] at hi
  | cons tin rest ih =>
      intro s i j oi oj hij hi hj hfi hfj
      cases i with
      | zero =>
          cases j with
          | zero => omega
          | succ j' =>
              simp [monitorRun] at hi
              have hw' : (monitorStep s tin).1.warned = true :=
                monitorStep_fire_warned s tin (hi ▸ hfi)
              have hj' : (monitorRun (monitorStep s tin).1 rest)[j']? = some oj := by
                simpa [monitorRun] using hj
              obtain ⟨k, ok, hk, hok, hchk⟩ :=
                monitorRun_fire_after_warned rest (monitorStep s tin).1 hw' j' oj hj' hfj
              exact ⟨k + 1, ok, by omega, by omega, by simpa [monitorRun] using hok, hchk⟩
      | succ i' =>
          cases j with
          | zero => omega
          | succ j' =>
              have hi' : (monitorRun (monitorStep s tin).1 rest)[i']? = some oi := by
                simpa [monitorRun] using hi
              have hj' : (monitorRun (monitorStep s tin).1 rest)[j']? = some oj := by
                simpa [monitorRun] using hj
              obtain ⟨k, ok, hk1, hk2, hok, hchk⟩ :=
                ih (monitorStep s tin).1 i' j' oi oj (by omega) hi' hj' hfi hfj
              exact ⟨k + 1, ok, by omega, by omega, by simpa [monitorRun] using hok, hchk⟩

/-- `monitorRun` distributes over trace concatenation. -/
theorem monitorRun_append (s : MonState) (l1 l2 : List TickIn) :
    monitorRun s (l1 ++ l2) = monitorRun s l1 ++ monitorRun (monFinal s l1) l2 := by
  induction l1 generalizing s with
  | nil => simp [monitorRun, monFinal]
  | cons tin rest ih => simp [monitorRun, monFinal, List.foldl_cons, ih]

/-- `monFinal` distributes over trace concatenation. -/
theorem monFinal_append (s : MonState) (l1 l2 : List TickIn) :
    monFinal s (l1 ++ l2) = monFinal (monFinal s l1) l2 := by
  simp [monFinal, List.foldl_append]

set_option maxRecDepth 100000

/-- The monitor state after the first scenario gap, computed in chunks
small enough for kernel evaluation. -/
theorem monFinal_scenarioGap1 : monFinal monInit scenarioGap1 = monMid := by
  have hA : monFinal monInit (scenarioGap1.take 50) = monPre := by decide
  have hB : monFinal monPre ((scenarioGap1.drop 50).take 50) = monPre := by decide
  have hC : monFinal monPre ((scenarioGap1.drop 50).drop 50) = monMid := by decide
  calc monFinal monInit scenarioGap1
      = monFinal monInit (scenarioGap1.take 50 ++ scenarioGap1.drop 50) := by
        rw [List.take_append_drop]
    _ = monFinal (monFinal monInit (scenarioGap1.take 50)) (scenarioGap1.drop 50) :=
        monFinal_append _ _ _
    _ = monFinal monPre (scenarioGap1.drop 50) := by rw [hA]
    _ = monFinal monPre
          ((scenarioGap1.drop 50).take 50 ++ (scenarioGap1.drop 50).drop 50) := by
        rw [List.take_append_drop]
    _ = monFinal (monFinal monPre ((scenarioGap1.drop 50).take 50))
          ((scenarioGap1.drop 50).drop 50) := monFinal_append _ _ _
    _ = monMid := by rw [hB, hC]

/-- C4: each of the monitor's two stall detectors fires at most once per
occurrence and re-arms only after a mailbox content change is observed
(formally: between any two fires, on any trace, some intermediate tick
observed a content change), and in the concrete scenario — a record at
t=0, 130s of silence, a new record at t=131, 130s of silence, polled once
per second — the inactivity detector fires exactly once during the first
gap and exactly twice in total, and the bootstrap detector never fires. -/
theorem C4_stall_rearm :
    (∀ (ins : List TickIn) (s : MonState) (i j : Nat) (oi oj : TickOut),
        i < j → (monitorRun s ins)[i]? = some oi → (monitorRun s ins)[j]? = some oj →
        fired oi → fired oj →
        ∃ k ok, i < k ∧ k ≤ j ∧ (monitorRun s ins)[k]? = some ok ∧ ok.changed = true) ∧
    ((monitorRun monInit scenarioGap1).countP (fun o => o.inactWarn) = 1 ∧
      (monitorRun monInit scenarioTrace).countP (fun o => o.inactWarn) = 2 ∧
      (monitorRun monInit scenarioTrace).countP (fun o => o.bootWarn) = 0) := by
  have hmid : monFinal monInit scenarioGap1 = monMid := monFinal_scenarioGap1
  have hsplit : monitorRun monInit scenarioTrace
      = monitorRun monInit scenarioGap1 ++ monitorRun monMid scenarioGap2 := by
    rw [show scenarioTrace = scenarioGap1 ++ scenarioGap2 from rfl,
      monitorRun_append, hmid]
  refine ⟨fun ins s i j oi oj => monitorRun_rearm ins s i j oi oj, ?_, ?_, ?_⟩
  · decide
  · rw [hsplit, List.countP_append]
    have h1 : (monitorRun monInit scenarioGap1).countP (fun o => o.inactWarn) = 1 := by
      decide
    have h2 : (monitorRun monMid scenarioGap2).countP (fun o => o.inactWarn) = 1 := by
      decide
    omega
  · rw [hsplit, List.countP_append]
    have h1 : (monitorRun monInit scenarioGap1).countP (fun o => o.bootWarn) = 0 := by
      decide
    have h2 : (monitorRun monMid scenarioGap2).countP (fun o => o.bootWarn) = 0 := by
      decide
    omega

/-- C4 witness: on a concrete trace with inactivity fires at ticks 1 and
3, the re-arm property yields an intermediate content change. -/
theorem C4_witness :
    ∃ k ok, 1 < k ∧ k ≤ 3 ∧ (monitorRun monInit witnessTrace)[k]? = some ok
      ∧ ok.changed = true :=
  C4_stall_rearm.1 witnessTrace monInit 1 3
    { bootWarn := false, inactWarn := true, changed := false,
      wrote := some "A", escalated := false }
    { bootWarn := false, inactWarn := true, changed := false,
      wrote := some "B", escalated := false }
    (by omega) (by decide) (by decide) (Or.inr rfl) (Or.inr rfl)

/-! ### C3 -/

/-- C3 counterexample: the claim "the contents of the mailbox file are
left unchanged by the monitor itself" is false on the code:
`ExtractionMonitor.start` itself writes "Starting extraction process..."
to `shared/container_status.txt` (extraction_cli.py:60 and 150-157),
changing the content of a mailbox that held "hello". -/
theorem C3_counterexample :
    (monApplyWrite ["shared"] fs0 (monitorStart 0 true).2).read
        (["shared"] ++ ["container_status.txt"])
      ≠ fs0.read (["shared"] ++ ["container_status.txt"]) := by
  decide

/-- C3 (amended): the monitor does write the mailbox file itself —
`start()` writes an initial "Starting extraction process..." record, and
each tick writes either the content it observed, a synthetic spinner line
(mailbox absent), or "Extraction completed" (worker exited).  On every
tick that observes an existing record, the monitor writes back exactly
the content it read, so the mailbox content is unchanged by such ticks. -/
theorem C3_monitor_writes :
    (∀ now : Nat, (monitorStart now true).2 = some "Starting extraction process...") ∧
    (∀ (s : MonState) (tin : TickIn) (c : String),
        tin.exited = false → tin.observed = some c → tin.parentExists = true →
        (monitorStep s tin).2.wrote = some c) ∧
    (∀ (s : MonState) (tin : TickIn) (sd : FPath) (fs : FS) (c : String),
        tin.exited = false → tin.observed = some c → tin.parentExists = true →
        fs.read (sd ++ ["container_status.txt"]) = some c →
        (monApplyWrite sd fs (monitorStep s tin).2.wrote).read
            (sd ++ ["container_status.txt"])
          = fs.read (sd ++ ["container_status.txt"])) := by
  have h2 : ∀ (s : MonState) (tin : TickIn) (c : String),
      tin.exited = false → tin.observed = some c → tin.parentExists = true →
      (monitorStep s tin).2.wrote = some c := by
    intro s tin c hex hob hpe
    rcases tin with ⟨now, ex, ob, pe⟩
    simp only at hex hob hpe
    subst hex
    subst hob
    subst hpe
    simp [monitorStep]
  refine ⟨fun now => by simp [monitorStart], h2, ?_⟩
  intro s tin sd fs c hex hob hpe hfs
  rw [h2 s tin c hex hob hpe, hfs]
  simp only [monApplyWrite]
  exact FS.read_write_self fs _ c

/-- C3 witness: a concrete echo tick leaves the mailbox content intact. -/
theorem C3_witness :
    (monApplyWrite ["shared"] fs0
        (monitorStep monInit
          { now := 5, exited := false, observed := some "hello", parentExists := true }).2.wrote).read
        (["shared"] ++ ["container_status.txt"])
      = fs0.read (["shared"] ++ ["container_status.txt"]) :=
  C3_monitor_writes.2.2 monInit
    { now := 5, exited := false, observed := some "hello", parentExists := true }
    ["shared"] fs0 "hello" rfl rfl rfl (by decide)

/-! ### C6 -/

/-- Setting a key makes it readable. -/
theorem getKV_setKV_self (d : ResultDict) (k v : String) :
    getKV (setKV d k v) k = some v := by
  induction d with
  | nil => simp [getKV, setKV, List.find?]
  | cons e rest ih =>
      by_cases he : e.1 = k
      · simp [setKV, he, getKV, List.find?]
      · simp only [setKV, he, if_false]
        simpa [getKV, List.find?, he] using ih

/-- Setting one key leaves other keys unchanged. -/
theorem getKV_setKV_ne (d : ResultDict) (k k' v : String) (hne : k' ≠ k) :
    getKV (setKV d k v) k' = getKV d k' := by
  induction d with
  | nil =>
      have h1 : ¬(k = k') := fun h => hne h.symm
      simp [getKV, setKV, List.find?, h1]
  | cons e rest ih =>
      by_cases he : e.1 = k
      · have h1 : ¬(k = k') := fun h => hne h.symm
        have h2 : ¬(e.1 = k') := by rw [he]; exact h1
        simp [setKV, he, getKV, List.find?, h1, h2]
      · by_cases he' : e.1 = k'
        · have h1 : ¬(k' = k) := hne
          simp [setKV, he, getKV, List.find?, he', h1]
        · simp only [setKV, he, if_false]
          simpa [getKV, List.find?, he'] using ih

/-- C6: when the extraction task exceeds the 600-second budget, `run`
returns (rather than raising) a result whose `status` is the timeout
terminal state, the teardown runs exactly once (one StatusUpdater stop,
one cancellation of the extraction task), nothing is deleted, and every
file present before the timeout is still present afterwards (the only
filesystem effect is the problem-status mailbox write). -/
theorem C6_timeout_teardown (pre : ResultDict) (mailbox : FPath) (fs : FS) :
    getKV (HeadlessExtractor.run .timedOut pre mailbox fs).1.result "status"
      = some "timeout" ∧
    (HeadlessExtractor.run .timedOut pre mailbox fs).1.raised = false ∧
    (HeadlessExtractor.run .timedOut pre mailbox fs).1.updater_stops = 1 ∧
    (HeadlessExtractor.run .timedOut pre mailbox fs).1.task_cancels = 1 ∧
    (HeadlessExtractor.run .timedOut pre mailbox fs).1.deleted_paths = [] ∧
    (∀ p, (fs.read p).isSome →
      (((HeadlessExtractor.run .timedOut pre mailbox fs).2).read p).isSome) := by
  refine ⟨?_, rfl, rfl, rfl, rfl, ?_⟩
  · show getKV (if pre.isEmpty then [("status", "timeout"), ("message", timeoutMsg)]
        else setKV (setKV pre "status" "timeout") "message" timeoutMsg) "status"
      = some "timeout"
    split
    · simp [getKV, List.find?]
    · rw [getKV_setKV_ne _ "message" "status" timeoutMsg (by decide), getKV_setKV_self]
  · intro p hp
    show ((fs.write mailbox ("I HAVE A PROBLEM: " ++ timeoutMsg)).read p).isSome
    by_cases hpm : p = mailbox
    · subst hpm
      simp [FS.read_write_self]
    · simpa [FS.read_write_ne _ _ _ _ hpm] using hp

/-- C6 witness: a concrete timed-out run keeps the pre-existing mailbox
file readable. -/
theorem C6_witness :
    (((HeadlessExtractor.run .timedOut [] ["shared", "container_status.txt"] fs0).2).read
        (["shared", "container_status.txt"])).isSome :=
  (C6_timeout_teardown [] ["shared", "container_status.txt"] fs0).2.2.2.2.2
    (["shared", "container_status.txt"]) (by decide)

/-! ### C9 -/

/-- C9 counterexample: the claim "a concurrent reader observes either the
complete previous record or the complete new record" is false on the
code.  During a publish that overwrites one concrete two-line record with
another, the truncated state (empty file, observable between the
truncating `open(..., 'w')` and the close) is neither record. -/
theorem C9_counterexample :
    "" ∈ publishObservable "PROGRESS UPDATE: a\nLast updated: t1"
        "SUCCESSFULLY COMPLETED: b\nLast updated: t2" ∧
    "" ≠ "PROGRESS UPDATE: a\nLast updated: t1" ∧
    "" ≠ "SUCCESSFULLY COMPLETED: b\nLast updated: t2" := by
  refine ⟨?_, by decide, by decide⟩
  simp [publishObservable]

/-- C9 (amended): the publish is an in-place truncate-then-write, not a
temp-file-and-rename: for every pair of non-empty records, a reader
concurrent with the publish can observe a state that is neither the
complete previous nor the complete new record (the truncated file), while
a reader arriving after the publish completes observes exactly the new
record. -/
theorem C9_truncate_then_write (old new : String) (hold : old ≠ "") (hnew : new ≠ "") :
    (∃ s ∈ publishObservable old new, s ≠ old ∧ s ≠ new) ∧
    (publishObservable old new).getLast? = some new := by
  refine ⟨⟨"", ?_, fun h => hold h.symm, fun h => hnew h.symm⟩, rfl⟩
  simp [publishObservable]

/-- C9 witness: the torn-read window exists for a concrete publish. -/
theorem C9_witness :
    (∃ s ∈ publishObservable "A" "B", s ≠ "A" ∧ s ≠ "B") ∧
    (publishObservable "A" "B").getLast? = some "B" :=
  C9_truncate_then_write "A" "B" (by decide) (by decide)

/-! ### C5 -/

/-- C5 counterexample: the claim "the published progress percentage
equals min(100, floor(100 * steps_completed / total_steps))" is false on
the code at steps_completed = 29, total_steps = 100: binary64 arithmetic
yields `int((29/100)*100) = 28` (the double nearest 0.29 times 100 rounds
to 28.999999999999996), while the exact value is 29. -/
theorem C5_counterexample :
    progress 29 100 ≠ min 100 (100 * 29 / 100) ∧ progress 29 100 = 28 := by
  constructor <;> decide

/-- C5 (amended): the published progress percentage always lies in
[0, 100] (the lower bound is inherent to the natural-number result); the
exact-floor characterisation does not hold in general under binary64
rounding, but it does hold throughout the shipped configuration
(`total_steps = 5`, steps 0 through 5). -/
theorem C5_progress_bounds (s t : Nat) (h : 0 < t) :
    progress s t ≤ 100 ∧ (∀ k < 6, progress k 5 = min 100 (100 * k / 5)) := by
  exact ⟨Nat.min_le_left _ _, by decide⟩

/-- C5 witness: a concrete mid-extraction state is within bounds. -/
theorem C5_witness :
    progress 3 5 ≤ 100 ∧ (∀ k < 6, progress k 5 = min 100 (100 * k / 5)) :=
  C5_progress_bounds 3 5 (by decide)
